import Mathlib

/-!
Verification development for the FinanceX scan-and-cache pipeline.

The Lean definitions below are shallow embeddings of the Python source:

* `src/analysis/signals.py` : `SignalType`, `Signal`, `SignalGenerator`
  (`evaluate_conditions`, `calculate_strength`, `generate_signal`,
  `generate_signals_batch`, `Signal.to_dict`).
* `src/data/cache.py` : `CacheManager` (`_get_cache_path`, `_get_ttl`,
  `is_fresh`, `get`, `set`) and the module-level `get_or_fetch`.
* `src/scanner/scanner.py` : `Scanner.fetch_symbol` and
  `Scanner.scan_symbols`.

Modelling conventions:

* Python floats are modelled as rationals (`ℚ`); float NaN or a missing
  value is modelled by `Option` (none = NaN / absent), matching the
  `pd.isna` checks in the source.
* A pandas DataFrame is modelled by `Frame`, a list of rows restricted to
  the indicator columns the analysed code reads (`rsi`, `stoch_d`, `macd`,
  `macd_signal`); `df.iloc[-1]` becomes `List.getLast?`.
* The filesystem cache directory is modelled by `Store`, an association
  list from file names (lists of characters) to entries carrying the file
  modification time (in minutes, as the TTLs are in minutes) and the
  parsed content; `data = none` models a file that exists but whose
  `pd.read_parquet` raises (the `except` branch of `CacheManager.get`).
* Exceptions of the data provider are modelled with `Except String`;
  Python string formatting of numbers (e.g. `f-strings` with `:.1f`) is
  abstracted by `toString`, which no claim inspects.
* The Indicator Engine (`add_all_indicators`) and the network provider are
  external collaborators per the design document; `generate_signal` is
  therefore modelled on the frame after indicator columns were added, and
  the provider is a parameter.
-/

/-- The `SignalType` enum from `src/analysis/signals.py`. -/
inductive SignalType where
  | BUY
  | SELL
  | NEUTRAL
deriving DecidableEq, Repr

/-- Model of `.value` on the Python enum member. -/
def SignalType.value : SignalType → String
  | .BUY => "BUY"
  | .SELL => "SELL"
  | .NEUTRAL => "NEUTRAL"

/-- One row of an indicator-bearing DataFrame, restricted to the columns
`generate_signal` reads; `none` models a NaN cell. -/
structure Row where
  rsi : Option ℚ
  stoch_d : Option ℚ
  macd : Option ℚ
  macd_signal : Option ℚ
deriving DecidableEq, Repr

/-- A DataFrame, as the ordered list of its rows. -/
def Frame := List Row
deriving DecidableEq, Repr

/-- The `Signal` dataclass from `src/analysis/signals.py`. -/
structure Signal where
  type : SignalType
  strength : ℚ
  rsi : Option ℚ
  stoch : Option ℚ
  macd : Option ℚ
  macd_signal : Option ℚ
  reason : String
deriving DecidableEq, Repr

/-- The configuration state of `SignalGenerator.__init__`: the two
thresholds read from the config (defaults 50.0). -/
structure SignalGenerator where
  rsi_threshold : ℚ
  stoch_threshold : ℚ
deriving DecidableEq, Repr

/-- Model of `SignalGenerator.evaluate_conditions` (`src/analysis/signals.py`
lines 134-204), translated branch for branch. -/
def SignalGenerator.evaluate_conditions (gen : SignalGenerator)
    (rsi stoch macd macd_signal : ℚ) : SignalType × List String :=
  if rsi > gen.rsi_threshold ∧ stoch > gen.stoch_threshold ∧ macd > macd_signal then
    (SignalType.BUY,
      ["RSI(" ++ toString rsi ++ ") > " ++ toString gen.rsi_threshold,
       "Stoch(" ++ toString stoch ++ ") > " ++ toString gen.stoch_threshold,
       "MACD > Signal"])
  else if rsi < gen.rsi_threshold ∧ stoch < gen.stoch_threshold ∧ macd < macd_signal then
    (SignalType.SELL,
      ["RSI(" ++ toString rsi ++ ") < " ++ toString gen.rsi_threshold,
       "Stoch(" ++ toString stoch ++ ") < " ++ toString gen.stoch_threshold,
       "MACD < Signal"])
  else
    (SignalType.NEUTRAL,
      [if rsi > gen.rsi_threshold then "RSI bullish"
        else if rsi < gen.rsi_threshold then "RSI bearish"
        else "RSI neutral",
       if stoch > gen.stoch_threshold then "Stoch bullish"
        else if stoch < gen.stoch_threshold then "Stoch bearish"
        else "Stoch neutral",
       if macd > macd_signal then "MACD bullish" else "MACD bearish"])

/-- Model of `SignalGenerator.calculate_strength` (`src/analysis/signals.py`
lines 206-252). The Python method ignores `self` (the midpoint 50 is a
literal in the source), so it is modelled as a plain function. -/
def calculate_strength (signal_type : SignalType)
    (rsi stoch macd macd_signal : ℚ) : ℚ :=
  if signal_type = SignalType.NEUTRAL then 0
  else
    let rsi_strength := min |rsi - 50| 50 * 2
    let stoch_strength := min |stoch - 50| 50 * 2
    let macd_hist := |macd - macd_signal|
    let macd_strength := min (macd_hist * 50) 100
    let strength := (rsi_strength + stoch_strength + macd_strength) / 3
    min strength 100

/-- Model of `SignalGenerator.generate_signal` (`src/analysis/signals.py`
lines 254-314) on a frame that already carries the indicator columns
(the Indicator Engine is an external collaborator). -/
def SignalGenerator.generate_signal (gen : SignalGenerator) (df : Frame) : Signal :=
  match List.getLast? df with
  | none =>
      { type := SignalType.NEUTRAL, strength := 0,
        rsi := none, stoch := none, macd := none, macd_signal := none,
        reason := "No data" }
  | some latest =>
      match latest.rsi, latest.stoch_d, latest.macd, latest.macd_signal with
      | some rsi, some stoch, some macd, some macd_signal =>
          let eval := gen.evaluate_conditions rsi stoch macd macd_signal
          let strength := calculate_strength eval.1 rsi stoch macd macd_signal
          { type := eval.1, strength := strength,
            rsi := some rsi, stoch := some stoch,
            macd := some macd, macd_signal := some macd_signal,
            reason := String.intercalate " | " eval.2 }
      | r, s, m, ms =>
          { type := SignalType.NEUTRAL, strength := 0,
            rsi := r, stoch := s, macd := m, macd_signal := ms,
            reason := "Insufficient data for indicators" }

/-- Python `round(x, n)` on an exact value: round half to even at `n`
decimal digits, modelled on rationals. -/
def roundHalfEven (q : ℚ) : ℤ :=
  let f := ⌊q⌋
  let r := q - f
  if r < 1/2 then f
  else if 1/2 < r then f + 1
  else if f % 2 = 0 then f else f + 1

/-- Model of `round(q, digits)`. -/
def roundTo (digits : Nat) (q : ℚ) : ℚ :=
  (roundHalfEven (q * 10 ^ digits) : ℚ) / 10 ^ digits

/-- The expression `round(v, digits) if v else None` from `Signal.to_dict`:
presence is decided by Python truthiness of the float, so an absent value
and a present 0.0 both yield `none`. -/
def truthyRound (digits : Nat) : Option ℚ → Option ℚ
  | none => none
  | some v => if v = 0 then none else some (roundTo digits v)

/-- The dictionary produced by `Signal.to_dict`
(`src/analysis/signals.py` lines 102-112). -/
structure SignalDict where
  signal : String
  strength : ℚ
  rsi : Option ℚ
  stoch : Option ℚ
  macd : Option ℚ
  macd_signal : Option ℚ
  reason : String
deriving DecidableEq, Repr

/-- Model of `Signal.to_dict` (`src/analysis/signals.py` lines 102-112). -/
def Signal.to_dict (s : Signal) : SignalDict :=
  { signal := s.type.value,
    strength := roundTo 1 s.strength,
    rsi := truthyRound 2 s.rsi,
    stoch := truthyRound 2 s.stoch,
    macd := truthyRound 6 s.macd,
    macd_signal := truthyRound 6 s.macd_signal,
    reason := s.reason }

/-- A scan-result dict produced by `Scanner.fetch_symbol`
(`src/scanner/scanner.py` lines 84-129); the three keys are always
present, `none` models a `None` value. -/
structure ScanResult where
  symbol : String
  data : Option Frame
  error : Option String
deriving DecidableEq, Repr

/-- Model of `Scanner.fetch_symbol`: one unit of work. `doFetch` models the
`get_or_fetch` call against the shared cache and provider; a raised
exception is an `Except.error` carrying its message (`str(e)`), which the
`except` branch converts into the error field of the result. -/
def fetch_symbol (doFetch : String → Except String Frame) (symbol : String) : ScanResult :=
  match doFetch symbol with
  | .ok df => { symbol := symbol, data := some df, error := none }
  | .error e => { symbol := symbol, data := none, error := some e }

/-- Model of `Scanner.scan_symbols` (`src/scanner/scanner.py` lines 131-211): one
`fetch_symbol` unit of work per input symbol, every future collected; the
completion order of the thread pool is abstracted to submission order (the
claims are order-agnostic; downstream keys results by symbol). -/
def scan_symbols (doFetch : String → Except String Frame) (symbols : List String) :
    List ScanResult :=
  symbols.map (fetch_symbol doFetch)

lemma fetch_symbol_symbol (doFetch : String → Except String Frame) (s : String) :
    (fetch_symbol doFetch s).symbol = s := by
  unfold fetch_symbol
  cases doFetch s <;> rfl

/-- Python truthiness of `result.get("error")`: false for `None` and the
empty string. -/
def truthy : Option String → Bool
  | none => false
  | some e => !(e == "")

/-- One output record of `generate_signals_batch`; error records set
`signal` to `"ERROR"` and leave every data field unpopulated. -/
structure OutRecord where
  symbol : String
  signal : String
  error : Option String
  strength : Option ℚ
  rsi : Option ℚ
  stoch : Option ℚ
  macd : Option ℚ
  macd_signal : Option ℚ
  reason : Option String
deriving DecidableEq, Repr

/-- The loop body of `SignalGenerator.generate_signals_batch`
(`src/analysis/signals.py` lines 331-355): `if data is None or
result.get("error")` produces the ERROR record; otherwise the record is
the symbol together with `generate_signal(data).to_dict()`. The modelled
`generate_signal` is total, so the `except` fallback is unreachable. -/
def process_result (gen : SignalGenerator) (r : ScanResult) : OutRecord :=
  match r.data with
  | none =>
      { symbol := r.symbol, signal := "ERROR", error := r.error,
        strength := none, rsi := none, stoch := none, macd := none,
        macd_signal := none, reason := none }
  | some df =>
      if truthy r.error then
        { symbol := r.symbol, signal := "ERROR", error := r.error,
          strength := none, rsi := none, stoch := none, macd := none,
          macd_signal := none, reason := none }
      else
        let d := (gen.generate_signal df).to_dict
        { symbol := r.symbol, signal := d.signal, error := none,
          strength := some d.strength, rsi := d.rsi, stoch := d.stoch,
          macd := d.macd, macd_signal := d.macd_signal, reason := some d.reason }

/-- Model of `SignalGenerator.generate_signals_batch`
(`src/analysis/signals.py` lines 316-357). -/
def generate_signals_batch (gen : SignalGenerator) (scan_results : List ScanResult) :
    List OutRecord :=
  scan_results.map (process_result gen)

/-- C1: with all four indicator values present, the evaluator returns BUY
iff all three comparisons are bullish, SELL iff all three are bearish, and
NEUTRAL in every remaining case. -/
theorem evaluate_conditions_unanimity (gen : SignalGenerator)
    (rsi stoch macd macd_signal : ℚ) :
    ((gen.evaluate_conditions rsi stoch macd macd_signal).1 = SignalType.BUY ↔
      rsi > gen.rsi_threshold ∧ stoch > gen.stoch_threshold ∧ macd > macd_signal) ∧
    ((gen.evaluate_conditions rsi stoch macd macd_signal).1 = SignalType.SELL ↔
      rsi < gen.rsi_threshold ∧ stoch < gen.stoch_threshold ∧ macd < macd_signal) ∧
    ((gen.evaluate_conditions rsi stoch macd macd_signal).1 = SignalType.NEUTRAL ↔
      ¬(rsi > gen.rsi_threshold ∧ stoch > gen.stoch_threshold ∧ macd > macd_signal) ∧
      ¬(rsi < gen.rsi_threshold ∧ stoch < gen.stoch_threshold ∧ macd < macd_signal)) := by
  unfold SignalGenerator.evaluate_conditions
  split_ifs with h1 h2 <;> simp_all
  intro _h1 _h2
  linarith [h1.2.2]

/-- C7: for a non-NEUTRAL signal the strength equals the unweighted average
of the three component scores (RSI and stochastic distance from the
midpoint 50, doubled and saturating at distance 50; MACD histogram
magnitude scaled by 50 and saturating at 100) and lies in [0, 100]; for a
NEUTRAL signal the strength is 0. -/
theorem calculate_strength_spec (ty : SignalType) (rsi stoch macd macd_signal : ℚ) :
    (ty ≠ SignalType.NEUTRAL →
      calculate_strength ty rsi stoch macd macd_signal =
        (min |rsi - 50| 50 * 2 + min |stoch - 50| 50 * 2 +
          min (|macd - macd_signal| * 50) 100) / 3 ∧
      0 ≤ calculate_strength ty rsi stoch macd macd_signal ∧
      calculate_strength ty rsi stoch macd macd_signal ≤ 100) ∧
    (ty = SignalType.NEUTRAL →
      calculate_strength ty rsi stoch macd macd_signal = 0) := by
  have h1 : min |rsi - 50| 50 ≤ 50 := min_le_right _ _
  have h2 : min |stoch - 50| 50 ≤ 50 := min_le_right _ _
  have h3 : min (|macd - macd_signal| * 50) 100 ≤ 100 := min_le_right _ _
  have n1 : (0:ℚ) ≤ min |rsi - 50| 50 := le_min (abs_nonneg _) (by norm_num)
  have n2 : (0:ℚ) ≤ min |stoch - 50| 50 := le_min (abs_nonneg _) (by norm_num)
  have n3 : (0:ℚ) ≤ min (|macd - macd_signal| * 50) 100 :=
    le_min (mul_nonneg (abs_nonneg _) (by norm_num)) (by norm_num)
  constructor
  · intro hty
    have hs : (min |rsi - 50| 50 * 2 + min |stoch - 50| 50 * 2 +
        min (|macd - macd_signal| * 50) 100) / 3 ≤ 100 := by linarith
    have heq : calculate_strength ty rsi stoch macd macd_signal =
        (min |rsi - 50| 50 * 2 + min |stoch - 50| 50 * 2 +
          min (|macd - macd_signal| * 50) 100) / 3 := by
      simp only [calculate_strength, if_neg hty]
      exact min_eq_left hs
    refine ⟨heq, ?_, ?_⟩
    · rw [heq]; linarith
    · rw [heq]; exact hs
  · intro hty
    simp [calculate_strength, hty]

/-- Witness for `calculate_strength_spec` at BUY with rsi 55, stoch 62,
macd 1, signal 0, and at NEUTRAL. -/
theorem calculate_strength_spec_witness :
    calculate_strength SignalType.BUY 55 62 1 0 =
      (min |(55:ℚ) - 50| 50 * 2 + min |(62:ℚ) - 50| 50 * 2 +
        min (|(1:ℚ) - 0| * 50) 100) / 3 ∧
    calculate_strength SignalType.NEUTRAL 55 62 1 0 = 0 :=
  ⟨((calculate_strength_spec SignalType.BUY 55 62 1 0).1 (by decide)).1,
   (calculate_strength_spec SignalType.NEUTRAL 55 62 1 0).2 rfl⟩

/-- C6: when the latest row of the frame has at least one absent indicator
value among rsi, stoch_d, macd, macd_signal, `generate_signal` returns a
NEUTRAL signal of strength 0 with the insufficient-data rationale,
reporting the values that were present and none for the absent ones. -/
theorem generate_signal_insufficient (gen : SignalGenerator) (df : Frame) (latest : Row)
    (hlast : List.getLast? df = some latest)
    (hmiss : latest.rsi = none ∨ latest.stoch_d = none ∨
      latest.macd = none ∨ latest.macd_signal = none) :
    gen.generate_signal df =
      { type := SignalType.NEUTRAL, strength := 0,
        rsi := latest.rsi, stoch := latest.stoch_d,
        macd := latest.macd, macd_signal := latest.macd_signal,
        reason := "Insufficient data for indicators" } := by
  unfold SignalGenerator.generate_signal
  rw [hlast]
  rcases hr : latest.rsi with _ | r <;> rcases hs : latest.stoch_d with _ | s <;>
    rcases hm : latest.macd with _ | m <;> rcases hms : latest.macd_signal with _ | ms <;>
    simp_all

/-- Witness for `generate_signal_insufficient` on a one-row frame whose
rsi cell is absent. -/
theorem generate_signal_insufficient_witness :
    SignalGenerator.generate_signal ⟨50, 50⟩ [⟨none, some 1, some 2, some 3⟩] =
      { type := SignalType.NEUTRAL, strength := 0, rsi := none, stoch := some 1,
        macd := some 2, macd_signal := some 3,
        reason := "Insufficient data for indicators" } :=
  generate_signal_insufficient ⟨50, 50⟩ [⟨none, some 1, some 2, some 3⟩]
    ⟨none, some 1, some 2, some 3⟩ rfl (Or.inl rfl)

/-- C2: for every fetch behavior and every list of N input symbols
(including N = 0), `scan_symbols` returns exactly N scan results keyed to
the input symbols in order (hence distinct keys for distinct inputs), and
a symbol whose fetch raises yields a result carrying the error message
instead of propagating, never affecting the other symbols. -/
theorem scan_symbols_complete (doFetch : String → Except String Frame)
    (symbols : List String) :
    (scan_symbols doFetch symbols).length = symbols.length ∧
    (scan_symbols doFetch symbols).map ScanResult.symbol = symbols ∧
    ∀ r ∈ scan_symbols doFetch symbols,
      (∃ e, doFetch r.symbol = .error e ∧ r.error = some e ∧ r.data = none) ∨
      (∃ df, doFetch r.symbol = .ok df ∧ r.data = some df ∧ r.error = none) := by
  refine ⟨by simp [scan_symbols], ?_, ?_⟩
  · induction symbols with
    | nil => rfl
    | cons a as ih =>
        simp only [scan_symbols, List.map_cons] at ih ⊢
        rw [fetch_symbol_symbol, ih]
  · intro r hr
    simp only [scan_symbols, List.mem_map] at hr
    obtain ⟨s, _hs, rfl⟩ := hr
    cases h : doFetch s with
    | error e =>
        left
        refine ⟨e, ?_, ?_, ?_⟩ <;> simp [fetch_symbol, fetch_symbol_symbol, h]
    | ok df =>
        right
        refine ⟨df, ?_, ?_, ?_⟩ <;> simp [fetch_symbol, fetch_symbol_symbol, h]

/-- Witness for `scan_symbols_complete`: a two-symbol scan in which the
first fetch raises still keys both results to the input symbols. -/
theorem scan_symbols_complete_witness :
    (scan_symbols
        (fun s => if s = "AAPL" then Except.error "boom" else Except.ok ([] : Frame))
        ["AAPL", "MSFT"]).map ScanResult.symbol = ["AAPL", "MSFT"] :=
  (scan_symbols_complete
    (fun s => if s = "AAPL" then Except.error "boom" else Except.ok ([] : Frame))
    ["AAPL", "MSFT"]).2.1

/-- C8: batch evaluation yields exactly one output record per input scan
result, and every input with absent data or carrying a (truthy) error
yields the ERROR record at its position, original error message preserved
and no data fields populated. -/
theorem generate_signals_batch_error_passthrough (gen : SignalGenerator)
    (scan_results : List ScanResult) :
    (generate_signals_batch gen scan_results).length = scan_results.length ∧
    ∀ (i : Fin scan_results.length),
      ((scan_results.get i).data = none ∨
        ∃ e, (scan_results.get i).error = some e ∧ e ≠ "") →
      (generate_signals_batch gen scan_results).get
          (Fin.cast (by simp [generate_signals_batch]) i) =
        { symbol := (scan_results.get i).symbol, signal := "ERROR",
          error := (scan_results.get i).error,
          strength := none, rsi := none, stoch := none, macd := none,
          macd_signal := none, reason := none } := by
  refine ⟨by simp [generate_signals_batch], ?_⟩
  intro i hi
  have hmap : (generate_signals_batch gen scan_results).get
      (Fin.cast (by simp [generate_signals_batch]) i) =
      process_result gen (scan_results.get i) := by
    simp [generate_signals_batch, List.get_eq_getElem, List.getElem_map]
  rw [hmap]
  set r := scan_results.get i with hr
  rcases hi with hd | ⟨e, he, hne⟩
  · simp [process_result, hd]
  · cases hdata : r.data with
    | none => simp [process_result, hdata]
    | some df =>
        have hbeq : (e == "") = false := beq_eq_false_iff_ne.mpr hne
        simp [process_result, hdata, truthy, he, hbeq]

/-- Witness for `generate_signals_batch_error_passthrough` on a
single errored scan result. -/
theorem generate_signals_batch_error_passthrough_witness :
    (generate_signals_batch ⟨50, 50⟩ [⟨"AAPL", none, some "boom"⟩]).get
        (Fin.cast (by simp [generate_signals_batch])
          (⟨0, by simp⟩ : Fin ([⟨"AAPL", none, some "boom"⟩] : List ScanResult).length)) =
      { symbol := "AAPL", signal := "ERROR", error := some "boom",
        strength := none, rsi := none, stoch := none, macd := none,
        macd_signal := none, reason := none } :=
  (generate_signals_batch_error_passthrough ⟨50, 50⟩ [⟨"AAPL", none, some "boom"⟩]).2
    ⟨0, by simp⟩ (Or.inl rfl)

/-- C10: the serialization `Signal.to_dict` tests presence by truthiness, so a component
whose value is exactly 0 is reported as absent (`none`); a nonzero present
value is reported rounded (2 digits for rsi and stoch, 6 for macd and
macd_signal), and an absent value is reported as `none`. -/
theorem to_dict_truthiness (s : Signal) :
    ((s.rsi = some 0 → s.to_dict.rsi = none) ∧
      (s.rsi = none → s.to_dict.rsi = none) ∧
      ∀ v, s.rsi = some v → v ≠ 0 → s.to_dict.rsi = some (roundTo 2 v)) ∧
    ((s.stoch = some 0 → s.to_dict.stoch = none) ∧
      (s.stoch = none → s.to_dict.stoch = none) ∧
      ∀ v, s.stoch = some v → v ≠ 0 → s.to_dict.stoch = some (roundTo 2 v)) ∧
    ((s.macd = some 0 → s.to_dict.macd = none) ∧
      (s.macd = none → s.to_dict.macd = none) ∧
      ∀ v, s.macd = some v → v ≠ 0 → s.to_dict.macd = some (roundTo 6 v)) ∧
    ((s.macd_signal = some 0 → s.to_dict.macd_signal = none) ∧
      (s.macd_signal = none → s.to_dict.macd_signal = none) ∧
      ∀ v, s.macd_signal = some v → v ≠ 0 →
        s.to_dict.macd_signal = some (roundTo 6 v)) := by
  refine ⟨⟨?_, ?_, ?_⟩, ⟨?_, ?_, ?_⟩, ⟨?_, ?_, ?_⟩, ⟨?_, ?_, ?_⟩⟩ <;>
    first
      | (intro h; simp [Signal.to_dict, truthyRound, h])
      | (intro v hv hv0; simp [Signal.to_dict, truthyRound, hv, hv0])

/-- Witness for `to_dict_truthiness`: a signal whose rsi is exactly 0 and
whose macd is absent reports both as `none`, while its nonzero stoch and
macd_signal are reported rounded. -/
theorem to_dict_truthiness_witness :
    (Signal.to_dict ⟨SignalType.BUY, 70, some 0, some 55, none, some (1/2), "r"⟩).rsi
        = none ∧
    (Signal.to_dict ⟨SignalType.BUY, 70, some 0, some 55, none, some (1/2), "r"⟩).stoch
        = some (roundTo 2 55) ∧
    (Signal.to_dict ⟨SignalType.BUY, 70, some 0, some 55, none, some (1/2), "r"⟩).macd
        = none ∧
    (Signal.to_dict ⟨SignalType.BUY, 70, some 0, some 55, none, some (1/2), "r"⟩).macd_signal
        = some (roundTo 6 (1/2)) :=
  ⟨(to_dict_truthiness ⟨SignalType.BUY, 70, some 0, some 55, none, some (1/2), "r"⟩).1.1 rfl,
   (to_dict_truthiness ⟨SignalType.BUY, 70, some 0, some 55, none, some (1/2), "r"⟩).2.1.2.2
      55 rfl (by norm_num),
   (to_dict_truthiness ⟨SignalType.BUY, 70, some 0, some 55, none, some (1/2), "r"⟩).2.2.1.2.1
      rfl,
   (to_dict_truthiness ⟨SignalType.BUY, 70, some 0, some 55, none, some (1/2), "r"⟩).2.2.2.2.2
      (1/2) rfl (by norm_num)⟩

/-- The symbol sanitization in `CacheManager._get_cache_path`
(`src/data/cache.py` lines 86-100): `symbol.upper()` then
`.replace("/", "_")` then `.replace(".", "_")`, character by character on
the Python string. -/
def sanitize (s : List Char) : List Char :=
  ((s.map Char.toUpper).map (fun c => if c = '/' then '_' else c)).map
    (fun c => if c = '.' then '_' else c)

/-- Model of `CacheManager._get_cache_path`: the cache file name, the
sanitized symbol then an underscore then the interval then the suffix
.parquet (the cache directory prefix is common to every entry and
dropped). -/
def get_cache_path (symbol interval : List Char) : List Char :=
  sanitize symbol ++ '_' :: (interval ++ ".parquet".toList)

/-- One cache file: its filesystem modification time (in minutes, the
unit of the TTLs) and its parsed content; `content = none` models a file
whose `pd.read_parquet` raises, the `except` branch of
`CacheManager.get`. -/
structure CacheEntry where
  mtime : ℤ
  content : Option Frame
deriving DecidableEq, Repr

/-- The cache directory: an association list from file names to files;
`List.lookup` returns the first binding, so consing a new binding
supersedes the old one, as a file overwrite does. -/
def Store := List (List Char × CacheEntry)
deriving DecidableEq, Repr

/-- Model of `cache_path.exists()` and of reading the file at a path. -/
def Store.find (st : Store) (path : List Char) : Option CacheEntry :=
  List.lookup path st

/-- The configuration state of `CacheManager.__init__`: the enabled flag
and the per-interval TTL mapping in minutes. -/
structure CacheManager where
  enabled : Bool
  ttl_minutes : List (String × ℤ)
deriving DecidableEq, Repr

/-- Model of `CacheManager._get_ttl` (`src/data/cache.py` lines 102-113):
`self.ttl_minutes.get(interval, 60)`. -/
def CacheManager.get_ttl (c : CacheManager) (interval : String) : ℤ :=
  (List.lookup interval c.ttl_minutes).getD 60

/-- Model of `CacheManager.is_fresh` (`src/data/cache.py` lines 115-146): false
when disabled or the file is absent, else `now < mtime + TTL(interval)`
(`datetime.now() < expiry` in the source, with `expiry = mtime +
timedelta(minutes=ttl)`). -/
def CacheManager.is_fresh (c : CacheManager) (st : Store) (now : ℤ)
    (symbol interval : String) : Bool :=
  if !c.enabled then false
  else
    match Store.find st (get_cache_path symbol.toList interval.toList) with
    | none => false
    | some entry => decide (now < entry.mtime + c.get_ttl interval)

/-- Model of `CacheManager.get` (`src/data/cache.py` lines 148-173): `none` when
disabled or stale; otherwise the parsed file content, with a read failure
(`except` branch) also yielding `none`. -/
def CacheManager.get (c : CacheManager) (st : Store) (now : ℤ)
    (symbol interval : String) : Option Frame :=
  if !c.enabled then none
  else if !(c.is_fresh st now symbol interval) then none
  else
    match Store.find st (get_cache_path symbol.toList interval.toList) with
    | none => none
    | some entry => entry.content

/-- Model of `CacheManager.set` (`src/data/cache.py` lines 175-198): a no-op
returning `false` when disabled, else writes the file (resetting its
modification time to now) and returns `true`; the filesystem write itself
is modelled as succeeding (the swallowed `to_parquet` failure is an
environment fault outside the model). -/
def CacheManager.set (c : CacheManager) (st : Store) (now : ℤ)
    (symbol interval : String) (data : Frame) : Bool × Store :=
  if !c.enabled then (false, st)
  else (true, (get_cache_path symbol.toList interval.toList, ⟨now, some data⟩) :: st)

/-- Model of the module-level `get_or_fetch` (`src/data/cache.py`
lines 252-294). The
returned Bool records whether the source fetcher was invoked; a raising
fetcher propagates before the cache write is attempted, exactly as in the
Python control flow. -/
def get_or_fetch (c : CacheManager) (st : Store) (now : ℤ)
    (symbol interval : String) (fetcher : Except String Frame) :
    Except String Frame × Bool × Store :=
  match c.get st now symbol interval with
  | some cached => (.ok cached, false, st)
  | none =>
      match fetcher with
      | .error e => (.error e, true, st)
      | .ok data => (.ok data, true, (c.set st now symbol interval data).2)

/-- C3: the freshness check `is_fresh` is false when caching is disabled or the file is
absent; when the file is present it is true iff the elapsed time since
the write is strictly below the TTL (so the boundary elapsed = TTL is
stale); an interval missing from the TTL mapping falls back to 60
minutes. -/
theorem is_fresh_spec (c : CacheManager) (st : Store) (now : ℤ)
    (symbol interval : String) :
    (c.enabled = false → c.is_fresh st now symbol interval = false) ∧
    (Store.find st (get_cache_path symbol.toList interval.toList) = none →
      c.is_fresh st now symbol interval = false) ∧
    (∀ entry, Store.find st (get_cache_path symbol.toList interval.toList) = some entry →
      (c.is_fresh st now symbol interval = true ↔
        c.enabled = true ∧ now - entry.mtime < c.get_ttl interval)) ∧
    (List.lookup interval c.ttl_minutes = none → c.get_ttl interval = 60) := by
  refine ⟨?_, ?_, ?_, ?_⟩
  · intro h
    simp [CacheManager.is_fresh, h]
  · intro h
    unfold CacheManager.is_fresh
    rw [h]
    cases c.enabled <;> simp
  · intro entry h
    unfold CacheManager.is_fresh
    rw [h]
    cases hc : c.enabled with
    | false => simp
    | true =>
        simp only [Bool.not_true, Bool.false_eq_true, if_false, decide_eq_true_eq]
        constructor
        · intro hlt
          exact ⟨by trivial, by omega⟩
        · intro hlt
          have h2 := hlt.2
          omega
  · intro h
    simp [CacheManager.get_ttl, h]

/-- Witness for `is_fresh_spec`: at the TTL boundary (entry written at
time 0, TTL 240 minutes, now = 240) the entry is stale, and an unlisted
interval falls back to a 60-minute TTL. -/
theorem is_fresh_spec_witness :
    (CacheManager.is_fresh ⟨true, [("1d", 240)]⟩
        [(get_cache_path "AAPL".toList "1d".toList, ⟨0, some ([] : Frame)⟩)]
        240 "AAPL" "1d" = true ↔
      true = true ∧ (240:ℤ) - 0 < CacheManager.get_ttl ⟨true, [("1d", 240)]⟩ "1d") ∧
    CacheManager.get_ttl ⟨true, [("1d", 240)]⟩ "5m" = 60 :=
  ⟨(is_fresh_spec ⟨true, [("1d", 240)]⟩
      [(get_cache_path "AAPL".toList "1d".toList, ⟨0, some ([] : Frame)⟩)]
      240 "AAPL" "1d").2.2.1 ⟨0, some ([] : Frame)⟩ rfl,
   (is_fresh_spec ⟨true, [("1d", 240)]⟩
      [(get_cache_path "AAPL".toList "1d".toList, ⟨0, some ([] : Frame)⟩)]
      240 "AAPL" "5m").2.2.2 rfl⟩

/-- C5 counterexample: with caching disabled, `set` followed immediately
by `get` returns `none`, not the stored series, so the round trip fails
as universally stated. -/
theorem cache_round_trip_disabled_counterexample :
    CacheManager.get ⟨false, []⟩
        ((CacheManager.set ⟨false, []⟩ [] 0 "AAPL" "1d" ([] : Frame)).2)
        0 "AAPL" "1d" = none ∧
    (none : Option Frame) ≠ some ([] : Frame) :=
  ⟨rfl, by simp⟩

/-- C5 amended: provided caching is enabled and no TTL boundary is
crossed (the interval TTL is positive and no time elapses between the
calls), `set` followed immediately by `get` returns the stored series. -/
theorem cache_round_trip (c : CacheManager) (st : Store) (now : ℤ)
    (symbol interval : String) (data : Frame)
    (henabled : c.enabled = true) (httl : 0 < c.get_ttl interval) :
    CacheManager.get c ((CacheManager.set c st now symbol interval data).2)
      now symbol interval = some data := by
  have hpath := beq_self_eq_true (get_cache_path symbol.toList interval.toList)
  have harith : now < now + c.get_ttl interval := by omega
  unfold CacheManager.get CacheManager.is_fresh CacheManager.set Store.find
  simp [henabled, List.lookup, hpath, harith]

/-- Witness for `cache_round_trip` on an enabled manager with the default
daily TTL. -/
theorem cache_round_trip_witness :
    CacheManager.enabled ⟨true, [("1d", 240)]⟩ = true ∧
    (0:ℤ) < CacheManager.get_ttl ⟨true, [("1d", 240)]⟩ "1d" ∧
    CacheManager.get ⟨true, [("1d", 240)]⟩
        ((CacheManager.set ⟨true, [("1d", 240)]⟩ [] 5 "AAPL" "1d" ([] : Frame)).2)
        5 "AAPL" "1d" = some ([] : Frame) :=
  ⟨rfl, by decide,
   cache_round_trip ⟨true, [("1d", 240)]⟩ [] 5 "AAPL" "1d" ([] : Frame) rfl (by decide)⟩

/-- C4 counterexample: a cache file can be fresh (its modification time
is within the TTL) yet unreadable, in which case `get` misses and
`get_or_fetch` does invoke the source fetcher. -/
theorem get_or_fetch_fresh_counterexample :
    CacheManager.is_fresh ⟨true, []⟩
        [(get_cache_path "AAPL".toList "1d".toList, ⟨0, none⟩)]
        0 "AAPL" "1d" = true ∧
    (get_or_fetch ⟨true, []⟩
        [(get_cache_path "AAPL".toList "1d".toList, ⟨0, none⟩)]
        0 "AAPL" "1d" (Except.ok ([] : Frame))).2.1 = true :=
  ⟨rfl, rfl⟩

/-- C4 amended: if the cache entry is fresh and its stored series is
readable, the source fetcher is never invoked: `get_or_fetch` serves the
cached series, reports zero source calls, and leaves the store
untouched. -/
theorem get_or_fetch_fresh_no_source_call (c : CacheManager) (st : Store)
    (now : ℤ) (symbol interval : String) (entry : CacheEntry) (data : Frame)
    (fetcher : Except String Frame)
    (hfind : Store.find st (get_cache_path symbol.toList interval.toList) = some entry)
    (hfresh : c.is_fresh st now symbol interval = true)
    (hcontent : entry.content = some data) :
    get_or_fetch c st now symbol interval fetcher = (.ok data, false, st) := by
  cases hc : c.enabled with
  | false =>
      exfalso
      unfold CacheManager.is_fresh at hfresh
      rw [hc] at hfresh
      simp at hfresh
  | true =>
      have hget : CacheManager.get c st now symbol interval = some data := by
        unfold CacheManager.get
        rw [hfind]
        simp [hc, hfresh, hcontent]
      unfold get_or_fetch
      rw [hget]

/-- Witness for `get_or_fetch_fresh_no_source_call`: a fresh, readable
entry is served from cache with no source call. -/
theorem get_or_fetch_fresh_no_source_call_witness :
    Store.find [(get_cache_path "AAPL".toList "1d".toList, ⟨0, some ([] : Frame)⟩)]
        (get_cache_path "AAPL".toList "1d".toList) = some ⟨0, some ([] : Frame)⟩ ∧
    CacheManager.is_fresh ⟨true, []⟩
        [(get_cache_path "AAPL".toList "1d".toList, ⟨0, some ([] : Frame)⟩)]
        0 "AAPL" "1d" = true ∧
    get_or_fetch ⟨true, []⟩
        [(get_cache_path "AAPL".toList "1d".toList, ⟨0, some ([] : Frame)⟩)]
        0 "AAPL" "1d" (Except.error "network down") =
      (.ok ([] : Frame), false,
        [(get_cache_path "AAPL".toList "1d".toList, ⟨0, some ([] : Frame)⟩)]) :=
  ⟨rfl, rfl,
   get_or_fetch_fresh_no_source_call ⟨true, []⟩
     [(get_cache_path "AAPL".toList "1d".toList, ⟨0, some ([] : Frame)⟩)]
     0 "AAPL" "1d" ⟨0, some ([] : Frame)⟩ ([] : Frame)
     (Except.error "network down") rfl rfl rfl⟩

/-- Splitting at a marker character is unambiguous when neither prefix
contains the marker. -/
lemma append_mark_inj : ∀ (as cs : List Char) {bs ds : List Char},
    '_' ∉ as → '_' ∉ cs → as ++ '_' :: bs = cs ++ '_' :: ds → as = cs ∧ bs = ds := by
  intro as
  induction as with
  | nil =>
      intro cs bs ds _ha hc h
      cases cs with
      | nil => simpa using h
      | cons c cs2 =>
          simp only [List.nil_append, List.cons_append, List.cons.injEq] at h
          obtain ⟨h1, _⟩ := h
          subst h1
          simp at hc
  | cons a as2 ih =>
      intro cs bs ds ha hc h
      cases cs with
      | nil =>
          simp only [List.cons_append, List.nil_append, List.cons.injEq] at h
          obtain ⟨h1, _⟩ := h
          subst h1
          simp at ha
      | cons c cs2 =>
          simp only [List.cons_append, List.cons.injEq] at h
          obtain ⟨h1, h2⟩ := h
          have ha2 : '_' ∉ as2 := fun hm => ha (List.mem_cons_of_mem _ hm)
          have hc2 : '_' ∉ cs2 := fun hm => hc (List.mem_cons_of_mem _ hm)
          obtain ⟨e1, e2⟩ := ih cs2 ha2 hc2 h2
          exact ⟨by rw [h1, e1], e2⟩

/-- C9 counterexample: the file-name mapping is not invertible on raw
keys: the distinct keys ("a", "1d") and ("A", "1d") generate the same
cache file name, because sanitization uppercases the symbol. -/
theorem cache_path_not_injective :
    get_cache_path "a".toList "1d".toList = get_cache_path "A".toList "1d".toList ∧
    ("a", "1d") ≠ (("A", "1d") : String × String) :=
  ⟨rfl, by decide⟩

/-- C9 amended: the file name is derived deterministically from the
sanitized symbol and the interval, and the mapping is invertible up to
sanitization: whenever the sanitized symbols contain no underscore, equal
file names force equal sanitized symbols and equal intervals (so the
sanitized cache key can be reconstructed from the file name alone);
distinct raw keys that sanitize identically, such as ("a","1d") and
("A","1d"), do collide. -/
theorem cache_path_inj (s1 i1 s2 i2 : List Char)
    (h1 : '_' ∉ sanitize s1) (h2 : '_' ∉ sanitize s2)
    (heq : get_cache_path s1 i1 = get_cache_path s2 i2) :
    sanitize s1 = sanitize s2 ∧ i1 = i2 := by
  unfold get_cache_path at heq
  obtain ⟨hsym, hrest⟩ := append_mark_inj (sanitize s1) (sanitize s2) h1 h2 heq
  refine ⟨hsym, ?_⟩
  have hlen : i1.length = i2.length := by
    have hl := congrArg List.length hrest
    simp only [List.length_append] at hl
    omega
  exact (List.append_inj hrest hlen).1

/-- Witness for `cache_path_inj`: the two spellings "aapl" and "AAPL" of
one symbol sanitize identically, so their equal file names reconstruct
the same sanitized key. -/
theorem cache_path_inj_witness :
    sanitize "aapl".toList = sanitize "AAPL".toList ∧ "1d".toList = "1d".toList :=
  cache_path_inj "aapl".toList "1d".toList "AAPL".toList "1d".toList
    (by decide) (by decide) rfl
